import Mathlib

/-!
Shallow embedding of `src/save_resume.cpp` (class `save_resume` of the
libtorrent examples): a background scheduler that periodically persists
per-torrent resume data, throttled so that the whole population is saved
about once per `m_interval`, driven by alerts.

Modelling conventions:
- `torrent_handle` values and info-hashes are abstracted as `Nat`; a
  handle's info-hash is the handle itself.
- `boost::unordered_set<torrent_handle> m_torrents` is modelled as a
  `List Nat` holding the elements in iteration order.  The container's
  iteration order is unspecified in C++; we fix insertion order (insert
  appends, erase keeps the relative order of the remaining elements,
  which matches bucket-based erase semantics).
- `m_cursor`, an iterator into `m_torrents`, is modelled as an index
  into the list; the index `m_torrents.length` plays the role of the
  `end()` sentinel.  Erasing an element below the cursor shifts the
  index down by one so that it keeps denoting the same element, exactly
  as the surviving iterator does in the C++ container.
- times (`time_now()`, `m_last_save`, `m_interval`) are in whole
  seconds as `Nat` (`total_seconds` in the source).  The C++ arithmetic
  `num_torrents * total_seconds(now - m_last_save) / total_seconds(m_interval)`
  is on `int`; a negative elapsed time would make `num_to_save`
  non-positive and the while loop run zero times, which coincides with
  the truncated `Nat` subtraction used here.  The magnitudes involved
  are far below `int` overflow, so no modular reduction is modelled.
- `m_num_in_flight` is a C++ `int` and is modelled as `Int` (with
  assertions compiled out, release builds can drive it negative).
- engine calls and filesystem writes are fire-and-forget effects; we
  record them in an instrumentation `log`.  The fields `issued`,
  `completed`, `failed` and `slotLog` are likewise instrumentation
  (ghost state): `issued`/`completed`/`failed` count save requests and
  terminal notifications, `slotLog` records which handle occupied each
  schedule slot of the throttled pass.  No branch of the code reads
  them.
- `need_save_resume_data()` is a query on the engine; each delivered
  alert carries the oracle `need_save : Nat → Bool` answering it for
  the duration of that `handle_alert` call.
-/

/-- Externally observable actions the scheduler performs: asynchronous
save requests (`torrent_handle::save_resume_data`), resume-file writes
(`save_file` after bencoding) and resume-file removals (`remove`). -/
inductive Effect where
  | saveRequest (handle : Nat)
  | fileWrite (path : String)
  | fileRemove (path : String)
deriving Repr, DecidableEq

/-- The alert types `save_resume` subscribes to.  `add_torrent` carries
`status().has_metadata` of the added handle; `save_resume_data` carries
the info-hash found inside the resume payload (the code reads it from
`(*sr->resume_data)["info-hash"]`, not from any member state). -/
inductive Alert where
  | add_torrent (handle : Nat) (has_metadata : Bool)
  | metadata_received (handle : Nat)
  | torrent_removed (handle : Nat)
  | save_resume_data (info_hash : Nat)
  | save_resume_failed
  | stats
deriving Repr, DecidableEq

/-- The state of one `save_resume` object, plus instrumentation. -/
structure SRState where
  m_resume_dir : String
  m_torrents : List Nat
  m_cursor : Nat
  m_last_save : Nat
  m_interval : Nat
  m_num_in_flight : Int
  issued : Nat
  completed : Nat
  failed : Nat
  log : List Effect
  slotLog : List Nat
deriving Repr, DecidableEq

/-- Modelled from the spec: `to_hex` (external helper from
`escape_string.cpp`, not part of this unit) renders the content hash as
lowercase hexadecimal; hashes are abstracted as naturals here. -/
def to_hex (info_hash : Nat) : String :=
  String.mk (Nat.toDigits 16 info_hash)

/-- Modelled from the spec: `combine_path` (external filesystem helper)
joins with a path separator; the resume file of a hash is
`{resumeDir}/{lowercaseHexOfContentHash}.resume`. -/
def resume_file_path (dir : String) (info_hash : Nat) : String :=
  dir ++ "/" ++ to_hex info_hash ++ ".resume"

/-- The two-line idiom `handle.save_resume_data(save_info_dict);
++m_num_in_flight;` appearing in every branch that issues a save
request (`issued` and `log` are instrumentation). -/
def issueSave (s : SRState) (handle : Nat) : SRState :=
  { s with m_num_in_flight := s.m_num_in_flight + 1
         , issued := s.issued + 1
         , log := s.log ++ [Effect.saveRequest handle] }

/-- `m_torrents.insert(handle)`: no-op when already present, otherwise
the new element is appended (iteration order = insertion order). -/
def insertHandle (l : List Nat) (handle : Nat) : List Nat :=
  if handle ∈ l then l else l ++ [handle]

/-- Lines 82-95: the `add_torrent_alert` branch.  Insert the handle,
request an immediate save when the torrent already has metadata, and
reset the cursor to `begin()` when it was the `end()` sentinel (the
sentinel is stable across insertion, so the post-insert comparison
`m_cursor == m_torrents.end()` holds exactly when the cursor was the
sentinel before the insert, i.e. equals the pre-insert length). -/
def handle_add (s : SRState) (handle : Nat) (has_metadata : Bool) : SRState :=
  let s1 := { s with m_torrents := insertHandle s.m_torrents handle }
  let s2 := if has_metadata then issueSave s1 handle else s1
  if s.m_cursor = s.m_torrents.length then { s2 with m_cursor := 0 } else s2

/-- Lines 96-100: the `metadata_received_alert` branch issues a save
request unconditionally. -/
def handle_metadata_received (s : SRState) (handle : Nat) : SRState :=
  issueSave s handle

/-- Lines 101-121: the `torrent_removed_alert` branch.  `find` the
handle (when absent, `TORRENT_ASSERT(i != m_torrents.end())` fires in
debug builds, and a release build increments/erases the `end()`
iterator — undefined behaviour; both are modelled as `none`).  When the
cursor sits on the found element it is pre-incremented and `wrapped` is
latched if that reached `end()`.  The resume file is removed, the
element erased, and a latched wrap sends the cursor to the `begin()` of
the shrunken set. -/
def handle_torrent_removed (s : SRState) (handle : Nat) : Option SRState :=
  if handle ∈ s.m_torrents then
    let i := s.m_torrents.indexOf handle
    let advanced := if s.m_cursor = i then s.m_cursor + 1 else s.m_cursor
    let wrapped : Bool := decide (s.m_cursor = i ∧ advanced = s.m_torrents.length)
    let ts := s.m_torrents.eraseIdx i
    let c2 := if wrapped then 0 else if i < advanced then advanced - 1 else advanced
    some { s with m_torrents := ts
                , m_cursor := c2
                , log := s.log ++ [Effect.fileRemove (resume_file_path s.m_resume_dir handle)] }
  else none

/-- Lines 122-133: the `save_resume_data_alert` branch.  The in-flight
counter is decremented (the guarding `TORRENT_ASSERT` is compiled out
of release builds), the payload is bencoded and written to the file
named after the info-hash read out of the payload itself.  The
bencoding and `create_directory` are folded into the single `fileWrite`
effect; `completed` is instrumentation. -/
def handle_save_completed (s : SRState) (info_hash : Nat) : SRState :=
  { s with m_num_in_flight := s.m_num_in_flight - 1
         , completed := s.completed + 1
         , log := s.log ++ [Effect.fileWrite (resume_file_path s.m_resume_dir info_hash)] }

/-- Lines 134-138: the `save_resume_data_failed_alert` branch only
decrements the in-flight counter (`failed` is instrumentation). -/
def handle_save_failed (s : SRState) : SRState :=
  { s with m_num_in_flight := s.m_num_in_flight - 1
         , failed := s.failed + 1 }

/-- Lines 146-150: `num_to_save = n * elapsed / interval`, then
`num_to_save = min(num_to_save, n)`. -/
def num_to_save (n elapsed interval : Nat) : Nat :=
  min (n * elapsed / interval) n

/-- Lines 154-155: the cursor after the wrap check at the top of the
loop body (`if (m_cursor == m_torrents.end()) m_cursor = m_torrents.begin();`). -/
def cursorNorm (s : SRState) : Nat :=
  if s.m_cursor = s.m_torrents.length then 0 else s.m_cursor

/-- The torrent under the (wrap-normalized) cursor, `*m_cursor`. -/
def cursorTorrent (s : SRState) : Nat :=
  s.m_torrents.getD (cursorNorm s) 0

/-- Lines 152-166, one iteration of the `while (num_to_save > 0)` loop:
wrap the cursor to `begin()` when it is at `end()`, issue a save
request iff the torrent under the cursor reports
`need_save_resume_data()`, then unconditionally stamp `m_last_save`
and advance the cursor.  (`slotLog` is instrumentation recording the
handle that received this schedule slot.) -/
def throttle_step (need_save : Nat → Bool) (now : Nat) (s : SRState) : SRState :=
  let s1 := if need_save (cursorTorrent s) then issueSave s (cursorTorrent s) else s
  { s1 with m_cursor := cursorNorm s + 1
          , m_last_save := now
          , slotLog := s1.slotLog ++ [cursorTorrent s] }

/-- The `while (num_to_save > 0)` loop, by fuel (the loop counter). -/
def throttle_loop (need_save : Nat → Bool) (now : Nat) : Nat → SRState → SRState
  | 0, s => s
  | k + 1, s => throttle_loop need_save now k (throttle_step need_save now s)

/-- Lines 140-166: the per-tick throttled pass appended to every
handled alert.  Returns unchanged when `m_torrents.empty()`. -/
def throttled_pass (need_save : Nat → Bool) (now : Nat) (s : SRState) : SRState :=
  if s.m_torrents.isEmpty then s
  else throttle_loop need_save now
    (num_to_save s.m_torrents.length (now - s.m_last_save) s.m_interval) s

/-- Lines 75-167: `save_resume::handle_alert`.  Dispatch on the alert
type (a `stats_alert` matches no cast and only triggers the tick), then
run the throttled pass.  `none` marks the undefined behaviour of
removing an untracked handle in a release build. -/
def handle_alert (need_save : Nat → Bool) (now : Nat) (s : SRState) (a : Alert) :
    Option SRState :=
  let s1 : Option SRState :=
    match a with
    | Alert.add_torrent h hm => some (handle_add s h hm)
    | Alert.metadata_received h => some (handle_metadata_received s h)
    | Alert.torrent_removed h => handle_torrent_removed s h
    | Alert.save_resume_data ih => some (handle_save_completed s ih)
    | Alert.save_resume_failed => some (handle_save_failed s)
    | Alert.stats => some s
  s1.map (throttled_pass need_save now)

/-- One delivered alert together with the wall clock at delivery and
the engine's `need_save_resume_data()` answers during its handling. -/
structure AlertEvent where
  now : Nat
  need_save : Nat → Bool
  alert : Alert

/-- Deliver a sequence of alerts to `handle_alert`, stopping at the
first undefined behaviour. -/
def run_alerts (s : SRState) : List AlertEvent → Option SRState
  | [] => some s
  | e :: rest =>
    match handle_alert e.need_save e.now s e.alert with
    | some s1 => run_alerts s1 rest
    | none => none

/-- Lines 54-68: the constructor state — empty set, cursor at
`begin()` (= `end()` of the empty set, index 0), `m_last_save =
time_now()` (the construction instant `t0`), `m_interval = minutes(5)`
= 300 seconds, zero in flight. -/
def save_resume_init (resume_dir : String) (t0 : Nat) : SRState :=
  { m_resume_dir := resume_dir, m_torrents := [], m_cursor := 0
  , m_last_save := t0, m_interval := 300, m_num_in_flight := 0
  , issued := 0, completed := 0, failed := 0, log := [], slotLog := [] }

/-- Lines 169-178 iterate over a snapshot of `m_torrents` (the loop
never mutates the set), issuing a save for each dirty torrent. -/
def save_all_go (need_save : Nat → Bool) : List Nat → SRState → SRState
  | [], s => s
  | t :: ts, s => save_all_go need_save ts (if need_save t then issueSave s t else s)

/-- Lines 169-178: `save_resume::save_all`. -/
def save_all (need_save : Nat → Bool) (s : SRState) : SRState :=
  save_all_go need_save s.m_torrents s

/-- `libtorrent::add_torrent_params`, reduced to the fields this unit
touches: an opaque remainder standing for everything copied from the
model (`tag`) and the attached resume payload. -/
structure add_torrent_params where
  tag : Nat
  resume_data : Option (List Nat)
deriving Repr, DecidableEq

/-- One directory entry seen by `save_resume::load`: the file name and
the outcome of `load_file` on it (`none` when `load_file` returns a
negative value or sets the error code). -/
structure DirEntry where
  file : String
  content : Option (List Nat)
deriving Repr, DecidableEq

/-- Modelled from the spec: `extension` (external path helper) returns
the trailing dot-extension of a filename, and the empty string when the
name has no dot. -/
def extension (f : String) : String :=
  let cs := f.toList
  if cs.contains '.' then
    String.mk ('.' :: (cs.reverse.takeWhile (fun c => c ≠ '.')).reverse)
  else ""

/-- Lines 180-199: `save_resume::load` over a successfully enumerated
directory.  Entries whose extension is not `.resume` are skipped;
entries whose read fails are skipped and the scan continues; every
remaining entry yields one `async_add_torrent` of a copy of `model`
with the file's bytes attached as resume data.  The returned list holds
the submitted parameter blocks in scan order. -/
def load (model : add_torrent_params) : List DirEntry → List add_torrent_params
  | [] => []
  | e :: rest =>
    if extension e.file ≠ ".resume" then load model rest
    else
      match e.content with
      | none => load model rest
      | some bytes => { model with resume_data := some bytes } :: load model rest



/-! ### Field characterizations of the event branches and the loop body -/

@[simp] theorem issueSave_m_resume_dir (s : SRState) (h : Nat) :
    (issueSave s h).m_resume_dir = s.m_resume_dir := rfl

@[simp] theorem issueSave_m_torrents (s : SRState) (h : Nat) :
    (issueSave s h).m_torrents = s.m_torrents := rfl

@[simp] theorem issueSave_m_cursor (s : SRState) (h : Nat) :
    (issueSave s h).m_cursor = s.m_cursor := rfl

@[simp] theorem issueSave_m_last_save (s : SRState) (h : Nat) :
    (issueSave s h).m_last_save = s.m_last_save := rfl

@[simp] theorem issueSave_m_interval (s : SRState) (h : Nat) :
    (issueSave s h).m_interval = s.m_interval := rfl

@[simp] theorem issueSave_m_num_in_flight (s : SRState) (h : Nat) :
    (issueSave s h).m_num_in_flight = s.m_num_in_flight + 1 := rfl

@[simp] theorem issueSave_issued (s : SRState) (h : Nat) :
    (issueSave s h).issued = s.issued + 1 := rfl

@[simp] theorem issueSave_completed (s : SRState) (h : Nat) :
    (issueSave s h).completed = s.completed := rfl

@[simp] theorem issueSave_failed (s : SRState) (h : Nat) :
    (issueSave s h).failed = s.failed := rfl

@[simp] theorem issueSave_log (s : SRState) (h : Nat) :
    (issueSave s h).log = s.log ++ [Effect.saveRequest h] := rfl

@[simp] theorem issueSave_slotLog (s : SRState) (h : Nat) :
    (issueSave s h).slotLog = s.slotLog := rfl

@[simp] theorem throttle_step_m_cursor (ns : Nat → Bool) (now : Nat) (s : SRState) :
    (throttle_step ns now s).m_cursor = cursorNorm s + 1 := rfl

@[simp] theorem throttle_step_m_last_save (ns : Nat → Bool) (now : Nat) (s : SRState) :
    (throttle_step ns now s).m_last_save = now := rfl

@[simp] theorem throttle_step_m_resume_dir (ns : Nat → Bool) (now : Nat) (s : SRState) :
    (throttle_step ns now s).m_resume_dir = s.m_resume_dir := by
  cases hn : ns (cursorTorrent s) <;> simp [throttle_step, hn]

@[simp] theorem throttle_step_m_torrents (ns : Nat → Bool) (now : Nat) (s : SRState) :
    (throttle_step ns now s).m_torrents = s.m_torrents := by
  cases hn : ns (cursorTorrent s) <;> simp [throttle_step, hn]

@[simp] theorem throttle_step_m_interval (ns : Nat → Bool) (now : Nat) (s : SRState) :
    (throttle_step ns now s).m_interval = s.m_interval := by
  cases hn : ns (cursorTorrent s) <;> simp [throttle_step, hn]

@[simp] theorem throttle_step_slotLog (ns : Nat → Bool) (now : Nat) (s : SRState) :
    (throttle_step ns now s).slotLog = s.slotLog ++ [cursorTorrent s] := by
  cases hn : ns (cursorTorrent s) <;> simp [throttle_step, hn]

@[simp] theorem throttle_step_completed (ns : Nat → Bool) (now : Nat) (s : SRState) :
    (throttle_step ns now s).completed = s.completed := by
  cases hn : ns (cursorTorrent s) <;> simp [throttle_step, hn]

@[simp] theorem throttle_step_failed (ns : Nat → Bool) (now : Nat) (s : SRState) :
    (throttle_step ns now s).failed = s.failed := by
  cases hn : ns (cursorTorrent s) <;> simp [throttle_step, hn]

@[simp] theorem throttle_step_m_num_in_flight (ns : Nat → Bool) (now : Nat) (s : SRState) :
    (throttle_step ns now s).m_num_in_flight
      = s.m_num_in_flight + (if ns (cursorTorrent s) then 1 else 0) := by
  cases hn : ns (cursorTorrent s) <;> simp [throttle_step, hn]

@[simp] theorem throttle_step_issued (ns : Nat → Bool) (now : Nat) (s : SRState) :
    (throttle_step ns now s).issued
      = s.issued + (if ns (cursorTorrent s) then 1 else 0) := by
  cases hn : ns (cursorTorrent s) <;> simp [throttle_step, hn]

@[simp] theorem throttle_step_log (ns : Nat → Bool) (now : Nat) (s : SRState) :
    (throttle_step ns now s).log
      = s.log ++ (if ns (cursorTorrent s) then [Effect.saveRequest (cursorTorrent s)] else []) := by
  cases hn : ns (cursorTorrent s) <;> simp [throttle_step, hn]

@[simp] theorem handle_add_m_resume_dir (s : SRState) (h : Nat) (hm : Bool) :
    (handle_add s h hm).m_resume_dir = s.m_resume_dir := by
  cases hm <;> by_cases hc : s.m_cursor = s.m_torrents.length <;> simp [handle_add, hc]

@[simp] theorem handle_add_m_torrents (s : SRState) (h : Nat) (hm : Bool) :
    (handle_add s h hm).m_torrents = insertHandle s.m_torrents h := by
  cases hm <;> by_cases hc : s.m_cursor = s.m_torrents.length <;> simp [handle_add, hc]

@[simp] theorem handle_add_m_cursor (s : SRState) (h : Nat) (hm : Bool) :
    (handle_add s h hm).m_cursor
      = if s.m_cursor = s.m_torrents.length then 0 else s.m_cursor := by
  cases hm <;> by_cases hc : s.m_cursor = s.m_torrents.length <;> simp [handle_add, hc]

@[simp] theorem handle_add_m_last_save (s : SRState) (h : Nat) (hm : Bool) :
    (handle_add s h hm).m_last_save = s.m_last_save := by
  cases hm <;> by_cases hc : s.m_cursor = s.m_torrents.length <;> simp [handle_add, hc]

@[simp] theorem handle_add_m_interval (s : SRState) (h : Nat) (hm : Bool) :
    (handle_add s h hm).m_interval = s.m_interval := by
  cases hm <;> by_cases hc : s.m_cursor = s.m_torrents.length <;> simp [handle_add, hc]

@[simp] theorem handle_add_m_num_in_flight (s : SRState) (h : Nat) (hm : Bool) :
    (handle_add s h hm).m_num_in_flight
      = s.m_num_in_flight + (if hm then 1 else 0) := by
  cases hm <;> by_cases hc : s.m_cursor = s.m_torrents.length <;> simp [handle_add, hc]

@[simp] theorem handle_add_issued (s : SRState) (h : Nat) (hm : Bool) :
    (handle_add s h hm).issued = s.issued + (if hm then 1 else 0) := by
  cases hm <;> by_cases hc : s.m_cursor = s.m_torrents.length <;> simp [handle_add, hc]

@[simp] theorem handle_add_completed (s : SRState) (h : Nat) (hm : Bool) :
    (handle_add s h hm).completed = s.completed := by
  cases hm <;> by_cases hc : s.m_cursor = s.m_torrents.length <;> simp [handle_add, hc]

@[simp] theorem handle_add_failed (s : SRState) (h : Nat) (hm : Bool) :
    (handle_add s h hm).failed = s.failed := by
  cases hm <;> by_cases hc : s.m_cursor = s.m_torrents.length <;> simp [handle_add, hc]

@[simp] theorem handle_add_log (s : SRState) (h : Nat) (hm : Bool) :
    (handle_add s h hm).log
      = s.log ++ (if hm then [Effect.saveRequest h] else []) := by
  cases hm <;> by_cases hc : s.m_cursor = s.m_torrents.length <;> simp [handle_add, hc]

@[simp] theorem handle_add_slotLog (s : SRState) (h : Nat) (hm : Bool) :
    (handle_add s h hm).slotLog = s.slotLog := by
  cases hm <;> by_cases hc : s.m_cursor = s.m_torrents.length <;> simp [handle_add, hc]

/-! ### Structural lemmas about the throttled pass -/

theorem throttle_loop_m_torrents (ns : Nat → Bool) (now k : Nat) (s : SRState) :
    (throttle_loop ns now k s).m_torrents = s.m_torrents := by
  induction k generalizing s with
  | zero => rfl
  | succ k ih => rw [throttle_loop, ih, throttle_step_m_torrents]

theorem throttle_loop_m_interval (ns : Nat → Bool) (now k : Nat) (s : SRState) :
    (throttle_loop ns now k s).m_interval = s.m_interval := by
  induction k generalizing s with
  | zero => rfl
  | succ k ih => rw [throttle_loop, ih, throttle_step_m_interval]

theorem throttle_loop_m_resume_dir (ns : Nat → Bool) (now k : Nat) (s : SRState) :
    (throttle_loop ns now k s).m_resume_dir = s.m_resume_dir := by
  induction k generalizing s with
  | zero => rfl
  | succ k ih => rw [throttle_loop, ih, throttle_step_m_resume_dir]

theorem throttle_loop_completed (ns : Nat → Bool) (now k : Nat) (s : SRState) :
    (throttle_loop ns now k s).completed = s.completed := by
  induction k generalizing s with
  | zero => rfl
  | succ k ih => rw [throttle_loop, ih, throttle_step_completed]

theorem throttle_loop_failed (ns : Nat → Bool) (now k : Nat) (s : SRState) :
    (throttle_loop ns now k s).failed = s.failed := by
  induction k generalizing s with
  | zero => rfl
  | succ k ih => rw [throttle_loop, ih, throttle_step_failed]

/-- Every iteration of the loop consumes exactly one schedule slot. -/
theorem throttle_loop_slotLog_length (ns : Nat → Bool) (now k : Nat) (s : SRState) :
    (throttle_loop ns now k s).slotLog.length = s.slotLog.length + k := by
  induction k generalizing s with
  | zero => rfl
  | succ k ih =>
      rw [throttle_loop, ih, throttle_step_slotLog]
      simp
      omega

/-- The loop only appends save-request effects to the log, and the
in-flight counter and the issued ghost counter each grow by exactly the
number of appended requests. -/
theorem throttle_loop_saves (ns : Nat → Bool) (now k : Nat) (s : SRState) :
    ∃ hs : List Nat,
      (throttle_loop ns now k s).log = s.log ++ hs.map Effect.saveRequest ∧
      (throttle_loop ns now k s).m_num_in_flight = s.m_num_in_flight + hs.length ∧
      (throttle_loop ns now k s).issued = s.issued + hs.length := by
  induction k generalizing s with
  | zero => exact ⟨[], by simp [throttle_loop]⟩
  | succ k ih =>
      obtain ⟨hs, hlog, hflight, hissued⟩ := ih (throttle_step ns now s)
      by_cases hn : ns (cursorTorrent s) = true
      · refine ⟨cursorTorrent s :: hs, ?_, ?_, ?_⟩
        · rw [throttle_loop, hlog, throttle_step_log, hn]
          simp
        · rw [throttle_loop, hflight, throttle_step_m_num_in_flight, hn]
          simp
          ring
        · rw [throttle_loop, hissued, throttle_step_issued, hn]
          simp
          ring
      · refine ⟨hs, ?_, ?_, ?_⟩
        · rw [throttle_loop, hlog, throttle_step_log, if_neg hn]
          simp
        · rw [throttle_loop, hflight, throttle_step_m_num_in_flight, if_neg hn]
          simp
        · rw [throttle_loop, hissued, throttle_step_issued, if_neg hn]
          simp

theorem throttled_pass_m_torrents (ns : Nat → Bool) (now : Nat) (s : SRState) :
    (throttled_pass ns now s).m_torrents = s.m_torrents := by
  unfold throttled_pass
  split
  · rfl
  · rw [throttle_loop_m_torrents]

theorem throttled_pass_m_interval (ns : Nat → Bool) (now : Nat) (s : SRState) :
    (throttled_pass ns now s).m_interval = s.m_interval := by
  unfold throttled_pass
  split
  · rfl
  · rw [throttle_loop_m_interval]

theorem throttled_pass_m_resume_dir (ns : Nat → Bool) (now : Nat) (s : SRState) :
    (throttled_pass ns now s).m_resume_dir = s.m_resume_dir := by
  unfold throttled_pass
  split
  · rfl
  · rw [throttle_loop_m_resume_dir]

theorem throttled_pass_completed (ns : Nat → Bool) (now : Nat) (s : SRState) :
    (throttled_pass ns now s).completed = s.completed := by
  unfold throttled_pass
  split
  · rfl
  · rw [throttle_loop_completed]

theorem throttled_pass_failed (ns : Nat → Bool) (now : Nat) (s : SRState) :
    (throttled_pass ns now s).failed = s.failed := by
  unfold throttled_pass
  split
  · rfl
  · rw [throttle_loop_failed]

theorem throttled_pass_saves (ns : Nat → Bool) (now : Nat) (s : SRState) :
    ∃ hs : List Nat,
      (throttled_pass ns now s).log = s.log ++ hs.map Effect.saveRequest ∧
      (throttled_pass ns now s).m_num_in_flight = s.m_num_in_flight + hs.length ∧
      (throttled_pass ns now s).issued = s.issued + hs.length := by
  unfold throttled_pass
  split
  · exact ⟨[], by simp⟩
  · exact throttle_loop_saves ns now _ s

/-! ### Accounting: the in-flight counter against the ghost counters -/

/-- The conserved accounting quantity: in-flight plus answered
(completed or failed) minus issued. -/
def ghost_balance (s : SRState) : Int :=
  s.m_num_in_flight + (s.completed : Int) + (s.failed : Int) - (s.issued : Int)

theorem ghost_balance_throttled_pass (ns : Nat → Bool) (now : Nat) (s : SRState) :
    ghost_balance (throttled_pass ns now s) = ghost_balance s := by
  obtain ⟨hs, _, hflight, hissued⟩ := throttled_pass_saves ns now s
  unfold ghost_balance
  rw [hflight, hissued, throttled_pass_completed, throttled_pass_failed]
  push_cast
  ring

theorem ghost_balance_handle_alert (ns : Nat → Bool) (now : Nat) (s s1 : SRState)
    (a : Alert) (h : handle_alert ns now s a = some s1) :
    ghost_balance s1 = ghost_balance s := by
  cases a with
  | add_torrent th hm =>
      simp only [handle_alert, Option.map_some', Option.some.injEq] at h
      rw [← h, ghost_balance_throttled_pass]
      unfold ghost_balance
      cases hm <;> simp <;> omega
  | metadata_received th =>
      simp only [handle_alert, Option.map_some', Option.some.injEq] at h
      rw [← h, ghost_balance_throttled_pass]
      unfold ghost_balance
      simp [handle_metadata_received] <;> omega
  | torrent_removed th =>
      simp only [handle_alert, handle_torrent_removed] at h
      by_cases hmem : th ∈ s.m_torrents
      · rw [if_pos hmem] at h
        simp only [Option.map_some', Option.some.injEq] at h
        rw [← h, ghost_balance_throttled_pass]
        rfl
      · rw [if_neg hmem] at h
        simp at h
  | save_resume_data ih =>
      simp only [handle_alert, Option.map_some', Option.some.injEq] at h
      rw [← h, ghost_balance_throttled_pass]
      unfold ghost_balance
      simp [handle_save_completed] <;> omega
  | save_resume_failed =>
      simp only [handle_alert, Option.map_some', Option.some.injEq] at h
      rw [← h, ghost_balance_throttled_pass]
      unfold ghost_balance
      simp [handle_save_failed] <;> omega
  | stats =>
      simp only [handle_alert, Option.map_some', Option.some.injEq] at h
      rw [← h, ghost_balance_throttled_pass]

theorem ghost_balance_run_alerts (s s1 : SRState) (evs : List AlertEvent)
    (h : run_alerts s evs = some s1) : ghost_balance s1 = ghost_balance s := by
  induction evs generalizing s with
  | nil =>
      simp only [run_alerts, Option.some.injEq] at h
      rw [h]
  | cons e rest ih =>
      simp only [run_alerts] at h
      cases ha : handle_alert e.need_save e.now s e.alert with
      | none => rw [ha] at h; simp at h
      | some s2 =>
          rw [ha] at h
          simp only at h
          rw [ih s2 h, ghost_balance_handle_alert e.need_save e.now s s2 e.alert ha]

/-! ### C1: in-flight accounting over event sequences -/

/-- At step `n` of the delivery sequence: the terminal notifications
seen so far are injectively matched by previously issued save requests
(the hypothesis of the accounting claim, stated on counts). -/
def counters_balanced_upto (s0 : SRState) (evs : List AlertEvent) (n : Nat) : Bool :=
  match run_alerts s0 (evs.take n) with
  | some s => decide (s.completed + s.failed ≤ s.issued)
  | none => true

/-- At step `n` of the delivery sequence: the in-flight counter is
non-negative and equals issued minus completed minus failed. -/
def inflight_ok_upto (s0 : SRState) (evs : List AlertEvent) (n : Nat) : Bool :=
  match run_alerts s0 (evs.take n) with
  | some s => decide (0 ≤ s.m_num_in_flight ∧
      s.m_num_in_flight = (s.issued : Int) - (s.completed : Int) - (s.failed : Int))
  | none => true

/-- C1: starting from the constructor state, for every delivered alert
sequence in which each save-completed and save-failed notification
corresponds to exactly one previously issued save request (at every
point, completed + failed ≤ issued), the in-flight counter never goes
negative and at every point equals saves requested minus saves
completed minus saves failed. -/
theorem c1_inflight_accounting (dir : String) (t0 : Nat) (evs : List AlertEvent)
    (hbal : ∀ n, counters_balanced_upto (save_resume_init dir t0) evs n = true) :
    ∀ n, inflight_ok_upto (save_resume_init dir t0) evs n = true := by
  intro n
  unfold inflight_ok_upto
  cases hr : run_alerts (save_resume_init dir t0) (evs.take n) with
  | none => rfl
  | some s =>
      have hgb := ghost_balance_run_alerts _ _ _ hr
      have hinit : ghost_balance (save_resume_init dir t0) = 0 := by
        simp [ghost_balance, save_resume_init]
      rw [hinit] at hgb
      have hb := hbal n
      unfold counters_balanced_upto at hb
      rw [hr] at hb
      have hb2 : s.completed + s.failed ≤ s.issued := of_decide_eq_true hb
      unfold ghost_balance at hgb
      rw [decide_eq_true_eq]
      constructor <;> omega

/-- A two-event run exercising `c1_inflight_accounting`: an add with
metadata (issuing one save) followed by its completion. -/
def c1ExampleEvents : List AlertEvent :=
  [{ now := 0, need_save := fun _ => false, alert := Alert.add_torrent 1 true },
   { now := 0, need_save := fun _ => false, alert := Alert.save_resume_data 1 }]

theorem c1_inflight_accounting_witness :
    inflight_ok_upto (save_resume_init "res" 0) c1ExampleEvents 2 = true :=
  c1_inflight_accounting "res" 0 c1ExampleEvents
    (by
      intro n
      match n with
      | 0 => rfl
      | 1 => rfl
      | 2 => rfl
      | k + 3 => rfl) 2

/-! ### C3: slot count of one tick -/

/-- C3: on a tick with a non-empty set, the number of schedule slots
consumed equals `floor(n * elapsed / interval)` clamped to `[0, n]`
(`num_to_save` is exactly that clamp; the floor of naturals is never
negative, so the lower clamp is inherent); in particular `n` slots when
`elapsed ≥ interval` and zero slots when `elapsed = 0`. -/
theorem c3_slots_per_tick (ns : Nat → Bool) (now : Nat) (s : SRState)
    (hne : s.m_torrents ≠ []) (hiv : 0 < s.m_interval) :
    (throttled_pass ns now s).slotLog.length
      = s.slotLog.length
        + num_to_save s.m_torrents.length (now - s.m_last_save) s.m_interval
    ∧ num_to_save s.m_torrents.length (now - s.m_last_save) s.m_interval
        ≤ s.m_torrents.length
    ∧ (s.m_interval ≤ now - s.m_last_save →
        num_to_save s.m_torrents.length (now - s.m_last_save) s.m_interval
          = s.m_torrents.length)
    ∧ (now - s.m_last_save = 0 →
        num_to_save s.m_torrents.length (now - s.m_last_save) s.m_interval = 0) := by
  refine ⟨?_, ?_, ?_, ?_⟩
  · unfold throttled_pass
    rw [if_neg (by simpa using hne)]
    exact throttle_loop_slotLog_length ns now _ s
  · exact min_le_right _ _
  · intro he
    unfold num_to_save
    exact min_eq_right ((Nat.le_div_iff_mul_le hiv).2
      (Nat.mul_le_mul_left s.m_torrents.length he))
  · intro h0
    rw [h0]
    simp [num_to_save]

/-- A two-torrent state, cursor at the start, whose whole interval has
elapsed by time 300; used to exercise the hypothesis-bearing theorems. -/
def twoTorrentState : SRState :=
  { save_resume_init "res" 0 with m_torrents := [1, 2] }

theorem c3_slots_per_tick_witness :
    twoTorrentState.m_torrents ≠ [] ∧ 0 < twoTorrentState.m_interval ∧
    ((throttled_pass (fun _ => true) 300 twoTorrentState).slotLog.length
        = twoTorrentState.slotLog.length
          + num_to_save twoTorrentState.m_torrents.length
              (300 - twoTorrentState.m_last_save) twoTorrentState.m_interval
      ∧ num_to_save twoTorrentState.m_torrents.length
            (300 - twoTorrentState.m_last_save) twoTorrentState.m_interval
          ≤ twoTorrentState.m_torrents.length
      ∧ (twoTorrentState.m_interval ≤ 300 - twoTorrentState.m_last_save →
          num_to_save twoTorrentState.m_torrents.length
              (300 - twoTorrentState.m_last_save) twoTorrentState.m_interval
            = twoTorrentState.m_torrents.length)
      ∧ (300 - twoTorrentState.m_last_save = 0 →
          num_to_save twoTorrentState.m_torrents.length
              (300 - twoTorrentState.m_last_save) twoTorrentState.m_interval = 0)) :=
  ⟨by decide, by decide,
    c3_slots_per_tick (fun _ => true) 300 twoTorrentState (by decide) (by decide)⟩

/-! ### C4: one iteration of the throttled loop -/

/-- C4: in each iteration of the throttled pass, the cursor wraps from
the end to the start (`cursorNorm`, a valid position), a save request
is issued with the in-flight counter incremented exactly when the
torrent under the cursor needs a save, and the cursor advance and the
`m_last_save` stamp happen unconditionally. -/
theorem c4_throttle_iteration (ns : Nat → Bool) (now : Nat) (s : SRState)
    (hne : s.m_torrents ≠ []) (hc : s.m_cursor ≤ s.m_torrents.length) :
    cursorNorm s < s.m_torrents.length
    ∧ (throttle_step ns now s).m_cursor = cursorNorm s + 1
    ∧ (throttle_step ns now s).m_last_save = now
    ∧ (throttle_step ns now s).m_torrents = s.m_torrents
    ∧ (ns (cursorTorrent s) = true →
        (throttle_step ns now s).m_num_in_flight = s.m_num_in_flight + 1
        ∧ (throttle_step ns now s).log = s.log ++ [Effect.saveRequest (cursorTorrent s)])
    ∧ (ns (cursorTorrent s) = false →
        (throttle_step ns now s).m_num_in_flight = s.m_num_in_flight
        ∧ (throttle_step ns now s).log = s.log) := by
  refine ⟨?_, rfl, rfl, throttle_step_m_torrents ns now s, ?_, ?_⟩
  · unfold cursorNorm
    have : 0 < s.m_torrents.length := List.length_pos.2 hne
    split <;> omega
  · intro hn
    rw [throttle_step_m_num_in_flight, throttle_step_log, hn]
    simp
  · intro hn
    rw [throttle_step_m_num_in_flight, throttle_step_log, hn]
    simp

theorem c4_throttle_iteration_witness :
    twoTorrentState.m_torrents ≠ [] ∧ twoTorrentState.m_cursor ≤ twoTorrentState.m_torrents.length ∧
    (cursorNorm twoTorrentState < twoTorrentState.m_torrents.length
    ∧ (throttle_step (fun _ => true) 30 twoTorrentState).m_cursor = cursorNorm twoTorrentState + 1
    ∧ (throttle_step (fun _ => true) 30 twoTorrentState).m_last_save = 30
    ∧ (throttle_step (fun _ => true) 30 twoTorrentState).m_torrents = twoTorrentState.m_torrents
    ∧ ((fun _ => true : Nat → Bool) (cursorTorrent twoTorrentState) = true →
        (throttle_step (fun _ => true) 30 twoTorrentState).m_num_in_flight
          = twoTorrentState.m_num_in_flight + 1
        ∧ (throttle_step (fun _ => true) 30 twoTorrentState).log
          = twoTorrentState.log ++ [Effect.saveRequest (cursorTorrent twoTorrentState)])
    ∧ ((fun _ => true : Nat → Bool) (cursorTorrent twoTorrentState) = false →
        (throttle_step (fun _ => true) 30 twoTorrentState).m_num_in_flight
          = twoTorrentState.m_num_in_flight
        ∧ (throttle_step (fun _ => true) 30 twoTorrentState).log = twoTorrentState.log)) :=
  ⟨by decide, by decide,
    c4_throttle_iteration (fun _ => true) 30 twoTorrentState (by decide) (by decide)⟩

/-! ### C6: metadata-ready handling -/

/-- A one-torrent run: the torrent is added without metadata at time 0
and its metadata arrives at time 300 while it is dirty, so the
throttled pass inside the same `handle_alert` call issues a second save
request for it. -/
def c6ExampleEvents : List AlertEvent :=
  [{ now := 0, need_save := fun _ => false, alert := Alert.add_torrent 5 false },
   { now := 300, need_save := fun _ => true, alert := Alert.metadata_received 5 }]

/-- C6 refuted as stated: handling the metadata-ready notification for
torrent 5 issues two save requests for it (one immediate, one from the
throttled pass running in the same handling) and leaves the in-flight
counter at 2, not 1; the number of requests therefore depends on the
throttling state. -/
theorem c6_counterexample :
    (run_alerts (save_resume_init "res" 0) c6ExampleEvents).map
        (fun s => (s.log.count (Effect.saveRequest 5), s.m_num_in_flight))
      = some (2, 2) := by decide

/-- C6 amended: handling a metadata-ready notification always issues an
immediate save request for that entity — first in the handling,
regardless of the throttling state — incrementing the in-flight counter
by one; the throttled pass that follows within the same handling may
issue further save requests, each also counted in flight. -/
theorem c6_metadata_immediate_save (ns : Nat → Bool) (now : Nat) (s : SRState) (h : Nat) :
    ∃ (extra : List Nat) (s1 : SRState),
      handle_alert ns now s (Alert.metadata_received h) = some s1
      ∧ s1.log = s.log ++ Effect.saveRequest h :: extra.map Effect.saveRequest
      ∧ s1.m_num_in_flight = s.m_num_in_flight + 1 + extra.length := by
  obtain ⟨hs, hlog, hflight, _⟩ := throttled_pass_saves ns now (handle_metadata_received s h)
  refine ⟨hs, throttled_pass ns now (handle_metadata_received s h), rfl, ?_, ?_⟩
  · rw [hlog]
    simp [handle_metadata_received]
  · rw [hflight]
    simp [handle_metadata_received]

/-! ### C7: removal of an untracked torrent -/

/-- C7 at the failing input: in the model, removing a torrent that is
not in the set does not produce an unchanged state (the claimed
defensive no-op); it reaches the path where the release build
increments and erases the `end()` iterator, modelled as `none`. -/
theorem c7_remove_untracked (ns : Nat → Bool) (now : Nat) :
    handle_alert ns now (save_resume_init "res" 0) (Alert.torrent_removed 7) = none := rfl

/-! ### C8: loading resume files -/

/-- C8: `load` submits exactly one add request per directory entry
whose extension is `.resume` and whose read succeeded — formed by
cloning the model parameters and attaching that file's bytes — in scan
order, skipping unreadable files and continuing with the rest. -/
theorem c8_load_spec (model : add_torrent_params) (entries : List DirEntry) :
    load model entries
      = (entries.filter (fun e =>
            extension e.file == ".resume" && e.content.isSome)).map
          (fun e => { model with resume_data := e.content }) := by
  induction entries with
  | nil => rfl
  | cons e rest ihl =>
      by_cases hx : extension e.file = ".resume"
      · cases hcont : e.content with
        | none => simp [load, hx, hcont, ihl]
        | some bytes => simp [load, hx, hcont, ihl]
      · simp [load, hx, ihl]

/-- A directory with three readable `.resume` files and one whose read
fails: three add requests are submitted, scan continuing past the
corrupt file. -/
def c8ExampleEntries : List DirEntry :=
  [{ file := "a.resume", content := some [1] },
   { file := "b.resume", content := none },
   { file := "c.resume", content := some [3] },
   { file := "notes.txt", content := some [9] },
   { file := "d.resume", content := some [4] }]

theorem c8_load_spec_witness :
    load { tag := 0, resume_data := none } c8ExampleEntries
        = (c8ExampleEntries.filter (fun e =>
              extension e.file == ".resume" && e.content.isSome)).map
            (fun e => { tag := 0, resume_data := e.content })
    ∧ (load { tag := 0, resume_data := none } c8ExampleEntries).length = 3 :=
  ⟨c8_load_spec { tag := 0, resume_data := none } c8ExampleEntries, by decide⟩

/-! ### C9: the save-completed write path -/

/-- C9: every save-completed notification writes the resume payload to
`{resumeDir}/{hex(info-hash)}.resume` where the info-hash comes from
the payload itself; the tracked set is not consulted and not changed,
so the write also happens for an entity already removed from the set. -/
theorem c9_write_uses_payload_hash (ns : Nat → Bool) (now : Nat) (s : SRState)
    (info_hash : Nat) :
    ∃ (s1 : SRState) (extra : List Nat),
      handle_alert ns now s (Alert.save_resume_data info_hash) = some s1
      ∧ s1.log = s.log ++ Effect.fileWrite (resume_file_path s.m_resume_dir info_hash)
          :: extra.map Effect.saveRequest
      ∧ s1.m_torrents = s.m_torrents
      ∧ s1.completed = s.completed + 1
      ∧ s1.m_num_in_flight = s.m_num_in_flight - 1 + extra.length := by
  obtain ⟨hs, hlog, hflight, _⟩ :=
    throttled_pass_saves ns now (handle_save_completed s info_hash)
  refine ⟨throttled_pass ns now (handle_save_completed s info_hash), hs, rfl, ?_, ?_, ?_, ?_⟩
  · rw [hlog]
    simp [handle_save_completed]
  · rw [throttled_pass_m_torrents]
    rfl
  · rw [throttled_pass_completed]
    rfl
  · rw [hflight]
    simp [handle_save_completed]

/-! ### C10: the unconditional sweep -/

theorem save_all_go_spec (ns : Nat → Bool) (l : List Nat) (s : SRState) :
    (save_all_go ns l s).m_torrents = s.m_torrents
    ∧ (save_all_go ns l s).m_cursor = s.m_cursor
    ∧ (save_all_go ns l s).m_last_save = s.m_last_save
    ∧ (save_all_go ns l s).log = s.log ++ (l.filter ns).map Effect.saveRequest
    ∧ (save_all_go ns l s).m_num_in_flight = s.m_num_in_flight + (l.filter ns).length := by
  induction l generalizing s with
  | nil => simp [save_all_go]
  | cons t ts ihl =>
      by_cases ht : ns t = true
      · obtain ⟨h1, h2, h3, h4, h5⟩ := ihl (issueSave s t)
        rw [save_all_go, if_pos ht]
        refine ⟨by simp [h1], by simp [h2], by simp [h3], ?_, ?_⟩
        · rw [h4]
          simp [List.filter_cons, ht]
        · rw [h5]
          simp [List.filter_cons, ht]
          ring
      · obtain ⟨h1, h2, h3, h4, h5⟩ := ihl s
        rw [save_all_go, if_neg ht]
        refine ⟨h1, h2, h3, ?_, ?_⟩
        · rw [h4]
          simp [List.filter_cons, ht]
        · rw [h5]
          simp [List.filter_cons, ht]

/-- C10: `save_all` issues one save request (incrementing the in-flight
counter by one) for exactly the currently dirty torrents, in iteration
order, and leaves the set, the cursor and the last-save timestamp
unchanged. -/
theorem c10_save_all_spec (ns : Nat → Bool) (s : SRState) :
    (save_all ns s).m_torrents = s.m_torrents
    ∧ (save_all ns s).m_cursor = s.m_cursor
    ∧ (save_all ns s).m_last_save = s.m_last_save
    ∧ (save_all ns s).log = s.log ++ (s.m_torrents.filter ns).map Effect.saveRequest
    ∧ (save_all ns s).m_num_in_flight
        = s.m_num_in_flight + (s.m_torrents.filter ns).length :=
  save_all_go_spec ns s.m_torrents s

/-! ### C2: round-robin coverage -/

/-- The sequence of schedule slots granted by `k` iterations of the
throttled loop over the fixed list `l`, starting from cursor `c`
(mirrors `throttle_step`: wrap, visit, advance). -/
def slots_of (l : List Nat) : Nat → Nat → List Nat
  | _, 0 => []
  | c, k + 1 =>
      let c1 := if c = l.length then 0 else c
      l.getD c1 0 :: slots_of l (c1 + 1) k

theorem slots_of_length (l : List Nat) (c k : Nat) :
    (slots_of l c k).length = k := by
  induction k generalizing c with
  | zero => rfl
  | succ k ih => simp [slots_of, ih]

/-- The loop consumes exactly the slot sequence predicted by
`slots_of` from its starting cursor. -/
theorem throttle_loop_slotLog (ns : Nat → Bool) (now k : Nat) (s : SRState) :
    (throttle_loop ns now k s).slotLog
      = s.slotLog ++ slots_of s.m_torrents s.m_cursor k := by
  induction k generalizing s with
  | zero => simp [throttle_loop, slots_of]
  | succ k ih =>
      rw [throttle_loop, ih, throttle_step_slotLog, throttle_step_m_torrents,
        throttle_step_m_cursor]
      rw [show slots_of s.m_torrents s.m_cursor (k + 1)
            = cursorTorrent s :: slots_of s.m_torrents (cursorNorm s + 1) k from by
          simp [slots_of, cursorTorrent, cursorNorm]]
      simp

/-- Starting at the `end()` sentinel is the same as starting at the
beginning: the first iteration wraps. -/
theorem slots_of_wrap (l : List Nat) (k : Nat) :
    slots_of l l.length k = slots_of l 0 k := by
  cases k with
  | zero => rfl
  | succ k =>
      simp [slots_of]

/-- Auxiliary: prefixes of two appends agree when the right parts agree
up to the relevant depth. -/
theorem take_append_congr (a b1 b2 : List Nat) (m k : Nat)
    (hb : b1.take m = b2.take m) (hk : k ≤ a.length + m) :
    (a ++ b1).take k = (a ++ b2).take k := by
  rw [List.take_append_eq_append_take, List.take_append_eq_append_take]
  have h1 : b1.take (k - a.length) = (b1.take m).take (k - a.length) := by
    rw [List.take_take, Nat.min_eq_left (by omega)]
  have h2 : b2.take (k - a.length) = (b2.take m).take (k - a.length) := by
    rw [List.take_take, Nat.min_eq_left (by omega)]
  rw [h1, h2, hb]

/-- A run of at most `l.length` slots starting at a valid cursor is an
initial segment of the rotation of `l` at that cursor. -/
theorem slots_of_rotate (l : List Nat) :
    ∀ (k c : Nat), c < l.length → k ≤ l.length →
      slots_of l c k = (l.drop c ++ l.take c).take k := by
  intro k
  induction k with
  | zero => intro c _ _; simp [slots_of]
  | succ k ih =>
      intro c hc hk
      have hne : c ≠ l.length := Nat.ne_of_lt hc
      have hdrop : l.drop c = l[c] :: l.drop (c + 1) := List.drop_eq_getElem_cons hc
      have hgetD : l.getD c 0 = l[c] := List.getD_eq_getElem l 0 hc
      simp only [slots_of, if_neg hne]
      by_cases hc1 : c + 1 < l.length
      · rw [ih (c + 1) hc1 (by omega)]
        rw [hdrop, hgetD]
        simp only [List.cons_append, List.take_succ_cons, List.cons.injEq, true_and]
        refine take_append_congr (l.drop (c + 1)) (l.take (c + 1)) (l.take c) c k ?_ ?_
        · rw [List.take_take, List.take_take, Nat.min_eq_left (by omega), Nat.min_self]
        · have : (l.drop (c + 1)).length = l.length - (c + 1) := List.length_drop (c + 1) l
          omega
      · have hc1e : c + 1 = l.length := by omega
        rw [hc1e, slots_of_wrap, ih 0 (by omega) (by omega)]
        rw [hdrop, hgetD]
        simp only [List.drop_zero, List.take_zero, List.append_nil, List.cons_append,
          List.take_succ_cons, List.cons.injEq, true_and]
        have hd : l.drop (c + 1) = [] := by
          rw [List.drop_eq_nil_iff_le]
          omega
        rw [hd, List.nil_append, List.take_take, Nat.min_eq_left (by omega)]

/-- One full pass (exactly `l.length` slots) visits every element of
`l` exactly as often as it occurs in `l`. -/
theorem slots_of_count (l : List Nat) (c : Nat) (hc : c ≤ l.length) (x : Nat) :
    (slots_of l c l.length).count x = l.count x := by
  rcases Nat.lt_or_ge c l.length with hlt | hge
  · rw [slots_of_rotate l l.length c hlt le_rfl]
    have hlen : (l.drop c ++ l.take c).length = l.length := by
      simp
      omega
    rw [List.take_of_length_le (le_of_eq hlen), List.count_append, Nat.add_comm,
      ← List.count_append, List.take_append_drop]
  · have hce : c = l.length := by omega
    rcases List.eq_nil_or_concat l with hnil | _
    · subst hnil
      simp at hce
      subst hce
      rfl
    · have hpos : 0 < l.length := by
        rcases l with _ | _
        · simp_all
        · simp
      rw [hce, slots_of_wrap, slots_of_rotate l l.length 0 hpos le_rfl]
      simp

/-- Steady ticking: two torrents added at time 0, then heartbeat ticks
at times 100, 200 and 300 — the inter-tick elapsed times (100 s each)
sum to one full `m_interval` of 300 s. -/
def c2ExampleEvents : List AlertEvent :=
  [{ now := 0, need_save := fun _ => false, alert := Alert.add_torrent 1 false },
   { now := 0, need_save := fun _ => false, alert := Alert.add_torrent 2 false },
   { now := 100, need_save := fun _ => false, alert := Alert.stats },
   { now := 200, need_save := fun _ => false, alert := Alert.stats },
   { now := 300, need_save := fun _ => false, alert := Alert.stats }]

/-- C2 refuted as stated: with 2 tracked torrents and steady ticking
whose elapsed times sum to one full interval, only one schedule slot is
granted in total (the flooring in `num_to_save` discards the remainder
of each partial interval, and `m_last_save` is reset whenever at least
one slot is consumed), so torrent 2 receives no slot and the cursor
does not complete a pass. -/
theorem c2_counterexample :
    (run_alerts (save_resume_init "res" 0) c2ExampleEvents).map
        (fun s => (s.m_torrents, s.slotLog)) = some ([1, 2], [1]) := by decide

/-- C2 amended: with a non-empty population of `n` distinct torrents
and a valid cursor, a tick whose elapsed time since `m_last_save` is at
least one full `SaveInterval` grants exactly `n` schedule slots, and
every tracked torrent occupies exactly one of them (one full cursor
pass); under steady ticking in smaller increments the flooring may
grant strictly fewer slots. -/
theorem c2_full_pass_on_full_interval (ns : Nat → Bool) (now : Nat) (s : SRState)
    (hnd : s.m_torrents.Nodup) (hne : s.m_torrents ≠ [])
    (hc : s.m_cursor ≤ s.m_torrents.length) (hiv : 0 < s.m_interval)
    (he : s.m_interval ≤ now - s.m_last_save) :
    ∃ pass : List Nat,
      (throttled_pass ns now s).slotLog = s.slotLog ++ pass
      ∧ pass.length = s.m_torrents.length
      ∧ ∀ x ∈ s.m_torrents, pass.count x = 1 := by
  have hnum : num_to_save s.m_torrents.length (now - s.m_last_save) s.m_interval
      = s.m_torrents.length :=
    min_eq_right ((Nat.le_div_iff_mul_le hiv).2
      (Nat.mul_le_mul_left s.m_torrents.length he))
  unfold throttled_pass
  rw [if_neg (by simpa using hne), hnum, throttle_loop_slotLog]
  refine ⟨slots_of s.m_torrents s.m_cursor s.m_torrents.length, rfl,
    slots_of_length _ _ _, ?_⟩
  intro x hx
  rw [slots_of_count s.m_torrents s.m_cursor hc x]
  exact List.count_eq_one_of_mem hnd hx

theorem c2_full_pass_on_full_interval_witness :
    twoTorrentState.m_torrents.Nodup ∧ twoTorrentState.m_torrents ≠ []
    ∧ twoTorrentState.m_cursor ≤ twoTorrentState.m_torrents.length
    ∧ 0 < twoTorrentState.m_interval
    ∧ twoTorrentState.m_interval ≤ 300 - twoTorrentState.m_last_save
    ∧ ∃ pass : List Nat,
        (throttled_pass (fun _ => false) 300 twoTorrentState).slotLog
          = twoTorrentState.slotLog ++ pass
        ∧ pass.length = twoTorrentState.m_torrents.length
        ∧ ∀ x ∈ twoTorrentState.m_torrents, pass.count x = 1 :=
  ⟨by decide, by decide, by decide, by decide, by decide,
    c2_full_pass_on_full_interval (fun _ => false) 300 twoTorrentState
      (by decide) (by decide) (by decide) (by decide) (by decide)⟩

/-! ### C5: removal and the cursor -/

theorem getD_eraseIdx_self (l : List Nat) (i d : Nat) :
    (l.eraseIdx i).getD i d = l.getD (i + 1) d := by
  induction l generalizing i with
  | nil => cases i <;> rfl
  | cons a t ih =>
      cases i with
      | zero => rfl
      | succ i =>
          simp only [List.eraseIdx_cons_succ, List.getD_cons_succ]
          exact ih i

/-- The closed form of the `torrent_removed` branch on a tracked
handle: the handle's slot is erased; a cursor that sat on it moves to
the next position (or to the start when it was last), a cursor beyond
it shifts down with the erasure, any other cursor is untouched. -/
theorem handle_torrent_removed_spec (s : SRState) (h : Nat) (hmem : h ∈ s.m_torrents) :
    handle_torrent_removed s h = some
      { s with
        m_torrents := s.m_torrents.eraseIdx (s.m_torrents.indexOf h)
      , m_cursor :=
          if s.m_cursor = s.m_torrents.indexOf h then
            (if s.m_cursor + 1 = s.m_torrents.length then 0 else s.m_cursor)
          else if s.m_torrents.indexOf h < s.m_cursor then s.m_cursor - 1
          else s.m_cursor
      , log := s.log ++ [Effect.fileRemove (resume_file_path s.m_resume_dir h)] } := by
  by_cases hci : s.m_cursor = s.m_torrents.indexOf h
  · by_cases hlast : s.m_cursor + 1 = s.m_torrents.length
    · simp [handle_torrent_removed, hmem, hci, hlast]
    · simp [handle_torrent_removed, hmem, hci, hlast]
  · by_cases hilt : s.m_torrents.indexOf h < s.m_cursor
    · simp [handle_torrent_removed, hmem, hci, hilt]
    · simp [handle_torrent_removed, hmem, hci, hilt]

/-- A run reaching a state where the set is `[1, 2]` and the cursor is
the `end()` sentinel (a full pass has just finished): removing torrent
1 — not under the cursor — leaves the set `[2]` with the cursor still
at the sentinel position 1 = length, not a valid position. -/
def c5ExampleEvents : List AlertEvent :=
  [{ now := 0, need_save := fun _ => false, alert := Alert.add_torrent 1 false },
   { now := 0, need_save := fun _ => false, alert := Alert.add_torrent 2 false },
   { now := 300, need_save := fun _ => false, alert := Alert.stats },
   { now := 300, need_save := fun _ => false, alert := Alert.torrent_removed 1 }]

/-- C5 refuted as stated: after this removal the set is non-empty
(`[2]`) but the cursor sits at position 1 = the set's length, i.e. at
the past-the-end sentinel rather than at a valid position. -/
theorem c5_counterexample :
    (run_alerts (save_resume_init "res" 0) c5ExampleEvents).map
        (fun s => (s.m_torrents, s.m_cursor)) = some ([2], 1)
    ∧ ¬ (1 : Nat) < [2].length := by decide

/-- C5 amended: removing the entity under the cursor advances the
cursor to the next live entity, wrapping to the start when the removed
entity was last in iteration order; and after a removal that leaves the
set non-empty the cursor is a valid position provided it was not
already at the past-the-end sentinel before the removal (a cursor left
at the sentinel by a previous full pass stays there until the next wrap
check). -/
theorem c5_removal_cursor (s : SRState) (h : Nat) (hmem : h ∈ s.m_torrents) :
    ∃ s1, handle_torrent_removed s h = some s1
      ∧ s1.m_torrents = s.m_torrents.eraseIdx (s.m_torrents.indexOf h)
      ∧ (s.m_cursor = s.m_torrents.indexOf h →
          (s.m_cursor + 1 = s.m_torrents.length → s1.m_cursor = 0)
          ∧ (s.m_cursor + 1 < s.m_torrents.length →
              s1.m_cursor = s.m_cursor
              ∧ s1.m_torrents.getD s1.m_cursor 0 = s.m_torrents.getD (s.m_cursor + 1) 0))
      ∧ ((s.m_cursor < s.m_torrents.length ∨ s.m_cursor = s.m_torrents.indexOf h) →
          s1.m_torrents ≠ [] → s1.m_cursor < s1.m_torrents.length) := by
  have hi : s.m_torrents.indexOf h < s.m_torrents.length := List.indexOf_lt_length.2 hmem
  refine ⟨_, handle_torrent_removed_spec s h hmem, rfl, ?_, ?_⟩
  · intro hci
    constructor
    · intro hlast
      rw [if_pos hci, if_pos hlast]
    · intro hnext
      have hlast : ¬ s.m_cursor + 1 = s.m_torrents.length := by omega
      refine ⟨by rw [if_pos hci, if_neg hlast], ?_⟩
      rw [if_pos hci, if_neg hlast, hci, getD_eraseIdx_self]
  · intro hvc hne1
    have hlen : (s.m_torrents.eraseIdx (s.m_torrents.indexOf h)).length
        = s.m_torrents.length - 1 := by
      rw [List.length_eraseIdx]
      simp [hi]
    have hpos : 0 < (s.m_torrents.eraseIdx (s.m_torrents.indexOf h)).length :=
      List.length_pos.2 hne1
    simp only [hlen] at hpos ⊢
    split_ifs <;> omega

theorem c5_removal_cursor_witness :
    1 ∈ twoTorrentState.m_torrents
    ∧ ∃ s1, handle_torrent_removed twoTorrentState 1 = some s1
      ∧ s1.m_torrents
          = twoTorrentState.m_torrents.eraseIdx (twoTorrentState.m_torrents.indexOf 1)
      ∧ (twoTorrentState.m_cursor = twoTorrentState.m_torrents.indexOf 1 →
          (twoTorrentState.m_cursor + 1 = twoTorrentState.m_torrents.length →
              s1.m_cursor = 0)
          ∧ (twoTorrentState.m_cursor + 1 < twoTorrentState.m_torrents.length →
              s1.m_cursor = twoTorrentState.m_cursor
              ∧ s1.m_torrents.getD s1.m_cursor 0
                  = twoTorrentState.m_torrents.getD (twoTorrentState.m_cursor + 1) 0))
      ∧ ((twoTorrentState.m_cursor < twoTorrentState.m_torrents.length
            ∨ twoTorrentState.m_cursor = twoTorrentState.m_torrents.indexOf 1) →
          s1.m_torrents ≠ [] → s1.m_cursor < s1.m_torrents.length) :=
  ⟨by decide, c5_removal_cursor twoTorrentState 1 (by decide)⟩
